import Mathlib

/-
Verification development for the Secure-Ecommerce-Application repository
(Express/MongoDB backend with an order workflow).

The embedding below translates the backend's order pipeline into Lean:

* `sanitizeString` / `sanitizeValue` model the `sanitizeInput` middleware
  (backend/middleware/auth.js): three sequential global regex substitutions
  applied in place to every string carried by a request, recursively.
* `xssPatternTest` models the shared XSS-detection regex
  `/(<script|<\/script|javascript:|on\w+\s*=)/i` used by the order route
  validators and by the mongoose `message` schema validator.
* `Order`, `Order.preSave`, `validateOrderDoc` model the mongoose order
  schema (backend/models/Order.js): the pre('save') hook recomputes
  `totalPrice`, refreshes `updatedAt` and generates `orderNumber` when it
  is absent; the schema validators re-check the field constraints.
  Persistence mechanics of the driver itself are out of scope (the spec
  treats the store as an external collaborator); a save is modelled as
  "run the pre-save hook, then the schema validators, then persist".
* `createOrder`, `getOrder`, `updateOrder`, `cancelOrder`,
  `listOrdersResponse` model the /api/orders route handlers
  (backend/routes/orders.js).  `updateOrder` mirrors
  `Order.findByIdAndUpdate` (update validators on the changed paths, no
  pre-save hook); `cancelOrder` mirrors `order.save()`.
* `RateLimiter.canMakeRequest` models the sliding-window rate limiter of
  frontend/src/utils/security.js.

Conventions: JS Date values are `JsDate` (days since the Unix epoch, which
was a Thursday, so `getDay = (day + 4) % 7` and Sunday is 0, plus the
time-of-day part that `setHours(0,0,0,0)` discards); millisecond
timestamps are `Nat`; prices are integer cents (1299.99 becomes 129999),
which keeps the arithmetic of `totalPrice = unitPrice * quantity` exact
and executable; `orderNumber` absent is the empty string (JS falsiness of
`''`/`undefined` in `if (!this.orderNumber)`).
-/

/-! ## Character and string utilities shared by the sanitizer and validators -/

/-- `pat` (already lowercase) is a case-insensitive prefix of `s`. -/
def lcPrefixOf : List Char → List Char → Bool
  | [], _ => true
  | _ :: _, [] => false
  | p :: ps, c :: cs => p = c.toLower && lcPrefixOf ps cs

/-- `pat` (already lowercase) occurs case-insensitively somewhere in `s`. -/
def strContainsLC (pat : List Char) : List Char → Bool
  | [] => pat.isEmpty
  | c :: rest => lcPrefixOf pat (c :: rest) || strContainsLC pat rest

/-- JS regex `\w` character class (ASCII letters, digits, underscore). -/
def isWordChar (c : Char) : Bool := c.isAlpha || c.isDigit || c = '_'

/-- Length of the longest prefix of `l` whose characters satisfy `p`. -/
def countWhile (p : Char → Bool) : List Char → Nat
  | [] => 0
  | c :: rest => if p c then countWhile p rest + 1 else 0

/-- Length of the match of the JS regex `on\w+\s*=` (case-insensitive)
anchored at the start of `s`, or `none` if it does not match there. -/
def onMatchLen (s : List Char) : Option Nat :=
  match s with
  | c1 :: c2 :: rest =>
    if c1.toLower = 'o' && c2.toLower = 'n' then
      let w := countWhile isWordChar rest
      if w = 0 then none
      else
        let afterWord := rest.drop w
        let sp := countWhile Char.isWhitespace afterWord
        match afterWord.drop sp with
        | '=' :: _ => some (2 + w + sp + 1)
        | _ => none
    else none
  | _ => none

/-- Scan of `on\w+\s*=` (case-insensitive) anywhere in the string; this is
one alternative of the shared XSS-detection regex. -/
def hasOnHandlerPattern : List Char → Bool
  | [] => false
  | c :: rest => (onMatchLen (c :: rest)).isSome || hasOnHandlerPattern rest

/-- The shared XSS-detection regex
`/(<script|<\/script|javascript:|on\w+\s*=)/i` used by the order-route
`message` custom validators and the mongoose `message` schema validator. -/
def xssPatternTest (s : String) : Bool :=
  strContainsLC ("<script".data) s.data ||
  strContainsLC ("</script".data) s.data ||
  strContainsLC ("javascript:".data) s.data ||
  hasOnHandlerPattern s.data

/-- JS `String.prototype.trim`, also the express-validator `.trim()`
sanitizer: strip whitespace from both ends. -/
def jsTrim (s : String) : String :=
  String.mk (((s.data.dropWhile Char.isWhitespace).reverse.dropWhile
    Char.isWhitespace).reverse)

/-! ## The `sanitizeInput` middleware's string rewriting

`obj[key] = obj[key]
  .replace(/<script\b[^<]*(?:(?!<\/script>)<[^<]*)*<\/script>/gi, '')
  .replace(/javascript:/gi, '')
  .replace(/on\w+\s*=/gi, '');`

Each `removeXF` function carries a fuel argument so that it is structurally
recursive (and hence kernel-evaluable); every step consumes at least one
character of the input, so fuel equal to the input length is enough, and
the fuel-exhausted branch is unreachable. -/

/-- The script-element regex matches at this position: `<script` followed
by a word boundary (`\b`). -/
def scriptOpenAt (s : List Char) : Bool :=
  lcPrefixOf ("<script".data) s &&
  (match s.drop 7 with
   | [] => true
   | c :: _ => !(isWordChar c))

/-- Offset one past the end of the first case-insensitive occurrence of
`</script>` in `s`, if any.  The body of the script-element regex
(`[^<]*(?:(?!<\/script>)<[^<]*)*`) consumes every character up to exactly
this first closing tag. -/
def closeEnd : List Char → Option Nat
  | [] => none
  | c :: rest =>
    if lcPrefixOf ("</script>".data) (c :: rest) then some 9
    else (closeEnd rest).map (· + 1)

/-- One global-replace pass of the script-element regex.  A match spans
from an open tag (with `\b`) to the first subsequent `</script>`; when no
closing tag follows, the regex fails at this position and the scan resumes
at the next character, exactly as the JS engine does (in particular the
prefix kept and the suffix are not re-joined and re-scanned). -/
def removeScriptTagsF : Nat → List Char → List Char
  | 0, s => s
  | _, [] => []
  | fuel + 1, c :: rest =>
    if scriptOpenAt (c :: rest) then
      match closeEnd (rest.drop 6) with
      | some n => removeScriptTagsF fuel (rest.drop (6 + n))
      | none => c :: removeScriptTagsF fuel rest
    else c :: removeScriptTagsF fuel rest

/-- One global-replace pass of `/javascript:/gi` (11 characters). -/
def removeJSF : Nat → List Char → List Char
  | 0, s => s
  | _, [] => []
  | fuel + 1, c :: rest =>
    if lcPrefixOf ("javascript:".data) (c :: rest) then
      removeJSF fuel (rest.drop 10)
    else c :: removeJSF fuel rest

/-- One global-replace pass of `/on\w+\s*=/gi` (a match has length
`n ≥ 4`, so the continuation `rest.drop (n - 1)` is the text after it). -/
def removeOnF : Nat → List Char → List Char
  | 0, s => s
  | _, [] => []
  | fuel + 1, c :: rest =>
    match onMatchLen (c :: rest) with
    | some n => removeOnF fuel (rest.drop (n - 1))
    | none => c :: removeOnF fuel rest

/-- The three sequential substitutions the middleware applies to every
request-carried string. -/
def sanitizeString (s : String) : String :=
  let l1 := removeScriptTagsF s.data.length s.data
  let l2 := removeJSF l1.length l1
  String.mk (removeOnF l2.length l2)

example : sanitizeString ("<script>alert(1)</script>") = "" := by decide
example : sanitizeString ("hello <script>alert(1)</script> there") = "hello  there" := by decide
example : sanitizeString ("click javascript:run()") = "click run()" := by decide
example : sanitizeString ("a onclick = bad b") = "a  bad b" := by decide
example : sanitizeString ("<script>no close") = "<script>no close" := by decide
example : xssPatternTest ("<script>no close") = true := by decide
example : xssPatternTest ("") = false := by decide
example : jsTrim ("  thanks  ") = "thanks" := by decide

/-! ## Request values and the recursive traversal of `sanitizeInput`

The middleware walks `req.body`, `req.query` and `req.params` with
`for (key in obj)`: strings are rewritten by the three substitutions,
nested objects (and arrays, which are objects in JS) are recursed into,
and every other value (number, boolean, null) is left unchanged.  The
traversal is total: it never throws and never rejects an input. -/

mutual
inductive JsValue where
  | vstr : String → JsValue
  | vnum : Int → JsValue
  | vbool : Bool → JsValue
  | vnull : JsValue
  | varr : JsArray → JsValue
  | vobj : JsObject → JsValue
inductive JsArray where
  | nil : JsArray
  | cons : JsValue → JsArray → JsArray
inductive JsObject where
  | nil : JsObject
  | cons : String → JsValue → JsObject → JsObject
end

mutual
def sanitizeValue : JsValue → JsValue
  | .vstr s => .vstr (sanitizeString s)
  | .vnum n => .vnum n
  | .vbool b => .vbool b
  | .vnull => .vnull
  | .varr a => .varr (sanitizeArray a)
  | .vobj o => .vobj (sanitizeObject o)
def sanitizeArray : JsArray → JsArray
  | .nil => .nil
  | .cons v rest => .cons (sanitizeValue v) (sanitizeArray rest)
def sanitizeObject : JsObject → JsObject
  | .nil => .nil
  | .cons k v rest => .cons k (sanitizeValue v) (sanitizeObject rest)
end

/- Erase every string leaf (to the empty string), keeping all structure,
keys and non-string leaves: the part of a value `sanitizeInput` may not
change. -/
mutual
def eraseStrings : JsValue → JsValue
  | .vstr _ => .vstr ("")
  | .vnum n => .vnum n
  | .vbool b => .vbool b
  | .vnull => .vnull
  | .varr a => .varr (eraseArr a)
  | .vobj o => .vobj (eraseObj o)
def eraseArr : JsArray → JsArray
  | .nil => .nil
  | .cons v rest => .cons (eraseStrings v) (eraseArr rest)
def eraseObj : JsObject → JsObject
  | .nil => .nil
  | .cons k v rest => .cons k (eraseStrings v) (eraseObj rest)
end

/- The string leaves of a value in traversal order. -/
mutual
def stringLeaves : JsValue → List String
  | .vstr s => [s]
  | .vnum _ => []
  | .vbool _ => []
  | .vnull => []
  | .varr a => arrLeaves a
  | .vobj o => objLeaves o
def arrLeaves : JsArray → List String
  | .nil => []
  | .cons v rest => stringLeaves v ++ arrLeaves rest
def objLeaves : JsObject → List String
  | .nil => []
  | .cons _ v rest => stringLeaves v ++ objLeaves rest
end

/-- A request as the middleware sees it: the three containers it mutates
in place (absent containers are skipped by the `if (req.body)` guards). -/
structure JsRequest where
  body : Option JsValue
  query : Option JsValue
  params : Option JsValue

/-- The whole middleware: sanitize `req.body`, `req.query`, `req.params`.
In the pure embedding the in-place mutation becomes returning the updated
request state. -/
def sanitizeRequest (r : JsRequest) : JsRequest :=
  ⟨r.body.map sanitizeValue, r.query.map sanitizeValue, r.params.map sanitizeValue⟩

/-! ## Catalog and delivery configuration (backend/routes/orders.js) -/

/-- `PRODUCT_PRICES` from the orders route, prices in integer cents. -/
def PRODUCT_PRICES : List (String × Nat) := [
  ("Laptop - Dell XPS 13", 129999),
  ("Laptop - MacBook Pro", 199999),
  ("Laptop - HP Spectre", 114999),
  ("Smartphone - iPhone 15", 79999),
  ("Smartphone - Samsung Galaxy S24", 69999),
  ("Smartphone - Google Pixel 8", 59999),
  ("Tablet - iPad Pro", 79999),
  ("Tablet - Surface Pro", 89999),
  ("Headphones - Sony WH-1000XM5", 29999),
  ("Headphones - Bose QuietComfort", 24999),
  ("Smart Watch - Apple Watch", 39999),
  ("Smart Watch - Samsung Galaxy Watch", 24999),
  ("Camera - Canon EOS R5", 389999),
  ("Camera - Sony A7 IV", 249999),
  ("Gaming Console - PlayStation 5", 49999),
  ("Gaming Console - Xbox Series X", 49999)]

/-- The catalog names; the mongoose `productName` enum lists exactly the
same sixteen strings. -/
def PRODUCT_NAMES : List String := PRODUCT_PRICES.map Prod.fst

def productPrice (name : String) : Option Nat :=
  (PRODUCT_PRICES.find? (fun p => p.1 == name)).map (fun p => p.2)

/-- The three delivery slots (route `isIn` list and mongoose enum). -/
def DELIVERY_TIMES : List String := ["10:00 AM", "11:00 AM", "12:00 PM"]

/-- The 25 Sri Lankan districts (route `isIn` list and mongoose enum). -/
def DELIVERY_LOCATIONS : List String := [
  "Colombo", "Gampaha", "Kalutara", "Kandy", "Matale", "Nuwara Eliya",
  "Galle", "Matara", "Hambantota", "Jaffna", "Kilinochchi", "Mannar",
  "Vavuniya", "Mullaitivu", "Batticaloa", "Ampara", "Trincomalee",
  "Kurunegala", "Puttalam", "Anuradhapura", "Polonnaruwa", "Badulla",
  "Moneragala", "Ratnapura", "Kegalle"]

/-! ## Dates, status, order documents (backend/models/Order.js) -/

/-- A JS `Date`: the calendar day (days since the Unix epoch, a Thursday)
plus the time-of-day part that `setHours(0, 0, 0, 0)` zeroes out. -/
structure JsDate where
  day : Nat
  msOfDay : Nat
deriving DecidableEq

/-- JS `Date.prototype.getDay`: 0 is Sunday. -/
def JsDate.getDay (d : JsDate) : Nat := (d.day + 4) % 7

/-- The mongoose `deliveryDate` validator: after truncating both the
current time and the candidate to date-only, the candidate must not be
before today and must not fall on a Sunday. -/
def validDeliveryDate (now delivery : JsDate) : Bool :=
  if delivery.day < now.day then false
  else if (delivery.day + 4) % 7 = 0 then false
  else true

/-- The custom `deliveryDate` check of the create and update route
validators: same comparison, but producing express-validator messages. -/
def dateCheckMsgs (now delivery : JsDate) : List String :=
  if delivery.day < now.day then ["Delivery date must be today or in the future"]
  else if (delivery.day + 4) % 7 = 0 then ["Delivery date cannot be Sunday"]
  else []

inductive OrderStatus where
  | pending | confirmed | processing | shipped | delivered | cancelled
deriving DecidableEq

/-- The `metadata` subdocument recorded at creation from the request. -/
structure Metadata where
  ipAddress : Option String
  userAgent : Option String
  sessionId : Option String
deriving DecidableEq

/-- An order document. -/
structure Order where
  userId : String
  orderNumber : String
  productName : String
  quantity : Nat
  deliveryDate : JsDate
  deliveryTime : String
  deliveryLocation : String
  message : String
  status : OrderStatus
  unitPrice : Nat
  totalPrice : Nat
  createdAt : Nat
  updatedAt : Nat
  metadata : Metadata
deriving DecidableEq

/-- `orderSchema.methods.canBeModifiedBy`. -/
def Order.canBeModifiedBy (o : Order) (userId : String) : Bool :=
  o.userId == userId && (o.status == .pending || o.status == .confirmed)

/-- `orderSchema.methods.canBeCancelledBy`. -/
def Order.canBeCancelledBy (o : Order) (userId : String) : Bool :=
  o.userId == userId &&
    (o.status == .pending || o.status == .confirmed || o.status == .processing)

/-- `'ORD-' + Date.now() + '-' + <random suffix>`; the random alphanumeric
suffix is passed in as `rand` (JS string concatenation on the char lists). -/
def genOrderNumber (ts : Nat) (rand : String) : String :=
  String.mk (("ORD-".data) ++ (toString ts).data ++ ("-".data) ++ rand.data)

/-- `orderSchema.pre('save')`: refresh `updatedAt`, recompute
`totalPrice = unitPrice * quantity`, and generate `orderNumber` exactly
when it is absent. -/
def Order.preSave (o : Order) (nowMs : Nat) (rand : String) : Order :=
  let o1 : Order := { o with updatedAt := nowMs, totalPrice := o.unitPrice * o.quantity }
  if o1.orderNumber = "" then { o1 with orderNumber := genOrderNumber nowMs rand }
  else o1

/-- Nonempty ASCII-alphanumeric string (`/^[a-zA-Z0-9]+$/`). -/
def isAlnumChars (l : List Char) : Bool :=
  !l.isEmpty && l.all (fun c => c.isAlpha || c.isDigit)

/-- Strip a literal `auth0|` prefix if present. -/
def auth0Tail : List Char → Option (List Char)
  | 'a' :: 'u' :: 't' :: 'h' :: '0' :: '|' :: rest => some rest
  | _ => none

/-- The `userId` schema validator:
`/^auth0\|[a-zA-Z0-9]+$/.test(v) || /^[a-zA-Z0-9]+$/.test(v)`. -/
def validUserIdStr (s : String) : Bool :=
  (match auth0Tail s.data with
   | some rest => isAlnumChars rest
   | none => false) || isAlnumChars s.data

/-- The mongoose order-schema validators, run when a document is saved
(`now` is the clock the `deliveryDate` validator reads).  `required`
string fields must be nonempty; `quantity` is an integer in [1, 10] (the
integrality is carried by the `Nat` type); the `message` validator is
`!v || !xssPattern.test(v)` plus the 500-character maxlength; enum fields
must be in their enum lists. -/
def validateOrderDoc (now : JsDate) (o : Order) : Bool :=
  validUserIdStr o.userId &&
  !(o.orderNumber == "") &&
  PRODUCT_NAMES.contains o.productName &&
  decide (1 ≤ o.quantity) && decide (o.quantity ≤ 10) &&
  validDeliveryDate now o.deliveryDate &&
  DELIVERY_TIMES.contains o.deliveryTime &&
  DELIVERY_LOCATIONS.contains o.deliveryLocation &&
  decide (o.message.length ≤ 500) &&
  (o.message == "" || !(xssPatternTest o.message))

/-! ## Route-level errors and results (backend/routes/orders.js)

The route discriminates failure causes: ownership failures are HTTP 403
with an "Access denied" message; status-disallowed mutations are the
Conflict-class failure of the spec's taxonomy (HTTP 400 in the code, with
a "cannot be modified/cancelled in its current status" message — same
HTTP shape as a validation failure but a distinct cause); field
validation failures are HTTP 400 with a detail list; a missing document
is HTTP 404. -/

inductive ApiError where
  | validationFailed : List String → ApiError
  | notFound : ApiError
  | forbidden : String → ApiError
  | statusConflict : String → ApiError
deriving DecidableEq

/-- The HTTP status the route attaches to each failure cause. -/
def ApiError.httpStatus : ApiError → Nat
  | .validationFailed _ => 400
  | .notFound => 404
  | .forbidden _ => 403
  | .statusConflict _ => 400

inductive ApiResult where
  | ok : Order → ApiResult
  | err : ApiError → ApiResult
deriving DecidableEq

def ApiResult.isOk : ApiResult → Bool
  | .ok _ => true
  | .err _ => false

/-- The message of the order a successful response carries. -/
def resultMessage : ApiResult → Option String
  | .ok o => some o.message
  | .err _ => none

/-- The store cell after an operation: a successful mutation persists the
returned document, a failed one leaves the stored document untouched. -/
def applyResult (store : Option Order) : ApiResult → Option Order
  | .ok o => some o
  | .err _ => store

/-! ## POST /api/orders -/

/-- The order-creation request body as the handler destructures it.
`deliveryDate` arrives as an ISO string; `none` stands for a missing or
unparseable value (`isISO8601` fails).  `totalPrice` is an extra property
a client may send; the handler never reads it. -/
structure CreateBody where
  productName : String
  quantity : Int
  deliveryDate : Option JsDate
  deliveryTime : String
  deliveryLocation : String
  message : Option String
  totalPrice : Option Nat := none

/-- The express-validator chain of `router.post('/')`: one message list
per field, concatenated in declaration order; an empty result means the
request passes.  The `message` chain is
`.optional().trim().isLength({max: 500}).custom(no XSS pattern)`, where
`.optional()` skips only an absent field and the custom check is
`if (value && pattern.test(value)) throw ...`. -/
def validateCreateBody (now : JsDate) (b : CreateBody) : List String :=
  (if (PRODUCT_PRICES.find? (fun p => p.1 == b.productName)).isSome then []
   else ["Invalid product selection"])
  ++ (if 1 ≤ b.quantity ∧ b.quantity ≤ 10 then []
      else ["Quantity must be between 1 and 10"])
  ++ (match b.deliveryDate with
      | none => ["Invalid value"]
      | some d => dateCheckMsgs now d)
  ++ (if DELIVERY_TIMES.contains b.deliveryTime then []
      else ["Delivery time must be 10:00 AM, 11:00 AM, or 12:00 PM"])
  ++ (if DELIVERY_LOCATIONS.contains b.deliveryLocation then []
      else ["Invalid delivery location"])
  ++ (match b.message with
      | none => []
      | some m =>
        (if (jsTrim m).length ≤ 500 then []
         else ["Message cannot exceed 500 characters"])
        ++ (if !(jsTrim m == "") && xssPatternTest (jsTrim m) then
              ["Message contains invalid characters"]
            else []))

/-- The `router.post('/')` handler, after `verifyToken` has authenticated
`requester` (= `req.user.sub`): reject on validation errors, resolve the
unit price from the catalog (never from the client), build the document
(`message: message || ''`, metadata from the request), and save it (the
pre-save hook recomputes the total price and generates the order number,
then the schema validators run).  The clock instant is seen as a `JsDate`
(`now`) by the date validators and as epoch milliseconds (`nowMs`) by
`Date.now()`; `rand` is the random order-number suffix drawn at save
time. -/
def createOrder (requester : String) (b : CreateBody) (now : JsDate)
    (nowMs : Nat) (rand : String) (md : Metadata) : ApiResult :=
  let errs := validateCreateBody now b
  if errs = [] then
    let unitPrice := (productPrice b.productName).getD 0
    let orderData : Order := {
      userId := requester
      orderNumber := ""
      productName := b.productName
      quantity := b.quantity.toNat
      deliveryDate := b.deliveryDate.getD ⟨0, 0⟩
      deliveryTime := b.deliveryTime
      deliveryLocation := b.deliveryLocation
      message := (b.message.map jsTrim).getD ("")
      status := .pending
      unitPrice := unitPrice
      totalPrice := 0
      createdAt := nowMs
      updatedAt := nowMs
      metadata := md }
    let saved := orderData.preSave nowMs rand
    if validateOrderDoc now saved then .ok saved
    else .err (.validationFailed ["Validation failed"])
  else .err (.validationFailed errs)

/-- `router.use(sanitizeInput)` runs before the order routes: every string
field of the body is rewritten by the three substitutions before the
validators see it.  (`deliveryDate` is modelled post-parse; sanitizing a
well-formed ISO date string leaves it unchanged.  `securityLogger` only
logs and `verifyToken` yields `requester`, so neither appears here.) -/
def sanitizeCreateBody (b : CreateBody) : CreateBody :=
  { b with
    productName := sanitizeString b.productName
    deliveryTime := sanitizeString b.deliveryTime
    deliveryLocation := sanitizeString b.deliveryLocation
    message := b.message.map sanitizeString }

/-- The full POST /api/orders pipeline: sanitization middleware, then the
handler with its validator chain. -/
def createPipeline (requester : String) (b : CreateBody) (now : JsDate)
    (nowMs : Nat) (rand : String) (md : Metadata) : ApiResult :=
  createOrder requester (sanitizeCreateBody b) now nowMs rand md

/-! ## GET /api/orders/:id -/

/-- The `router.get('/:id')` handler: 404 when the lookup misses, 403 when
the stored order's owner differs from the authenticated user. -/
def getOrder (store : Option Order) (requester : String) : ApiResult :=
  match store with
  | none => .err .notFound
  | some o =>
    if o.userId == requester then .ok o
    else .err (.forbidden ("Access denied. You can only access your own orders."))

/-! ## PUT /api/orders/:id -/

/-- The update request body: the four fields the handler destructures are
all optional; the remaining fields model extra properties a client may
send, which the handler never reads. -/
structure UpdateBody where
  deliveryDate : Option JsDate := none
  deliveryTime : Option String := none
  deliveryLocation : Option String := none
  message : Option String := none
  userId : Option String := none
  productName : Option String := none
  quantity : Option Int := none
  unitPrice : Option Nat := none
  totalPrice : Option Nat := none
  status : Option OrderStatus := none
  orderNumber : Option String := none
  createdAt : Option Nat := none

/-- The express-validator chain of `router.put('/:id')`; every field is
`.optional()`, with the same checks as at creation. -/
def validateUpdateBody (now : JsDate) (b : UpdateBody) : List String :=
  (match b.deliveryDate with
   | none => []
   | some d => dateCheckMsgs now d)
  ++ (match b.deliveryTime with
      | none => []
      | some t =>
        if DELIVERY_TIMES.contains t then []
        else ["Delivery time must be 10:00 AM, 11:00 AM, or 12:00 PM"])
  ++ (match b.deliveryLocation with
      | none => []
      | some l =>
        if DELIVERY_LOCATIONS.contains l then []
        else ["Invalid delivery location"])
  ++ (match b.message with
      | none => []
      | some m =>
        (if (jsTrim m).length ≤ 500 then []
         else ["Message cannot exceed 500 characters"])
        ++ (if !(jsTrim m == "") && xssPatternTest (jsTrim m) then
              ["Message contains invalid characters"]
            else []))

/-- `Order.findByIdAndUpdate(..., { runValidators: true })` runs the
schema validators on exactly the updated paths. -/
def runUpdateValidators (now : JsDate) (b : UpdateBody) : Bool :=
  b.deliveryDate.all (fun d => validDeliveryDate now d) &&
  b.deliveryTime.all (fun t => DELIVERY_TIMES.contains t) &&
  b.deliveryLocation.all (fun l => DELIVERY_LOCATIONS.contains l) &&
  b.message.all (fun m =>
    decide ((jsTrim m).length ≤ 500) &&
    (jsTrim m == "" || !(xssPatternTest (jsTrim m))))

/-- The `router.put('/:id')` handler: validation errors first, then 404,
then `canBeModifiedBy` — on its failure the code discriminates ownership
(403) from status (the Conflict-class 400).  On success it applies only
the four delivery fields through `findByIdAndUpdate` (no pre-save hook
runs; `timestamps: true` refreshes `updatedAt`). -/
def updateOrder (store : Option Order) (requester : String) (b : UpdateBody)
    (now : JsDate) (nowMs : Nat) : ApiResult :=
  let errs := validateUpdateBody now b
  if errs = [] then
    match store with
    | none => .err .notFound
    | some order =>
      if order.canBeModifiedBy requester then
        let updated : Order := { order with
          deliveryDate := b.deliveryDate.getD order.deliveryDate
          deliveryTime := b.deliveryTime.getD order.deliveryTime
          deliveryLocation := b.deliveryLocation.getD order.deliveryLocation
          message := (b.message.map jsTrim).getD order.message
          updatedAt := nowMs }
        if runUpdateValidators now b then .ok updated
        else .err (.validationFailed ["Validation failed"])
      else
        if order.userId == requester then
          .err (.statusConflict ("Order cannot be modified in its current status."))
        else
          .err (.forbidden ("Access denied. You can only modify your own orders."))
  else .err (.validationFailed errs)

/-! ## DELETE /api/orders/:id -/

/-- The `router.delete('/:id')` handler: 404, then `canBeCancelledBy`
with the same ownership-versus-status discrimination; on success the
status becomes `cancelled` and the document is saved (pre-save hook and
schema validators run again). -/
def cancelOrder (store : Option Order) (requester : String) (now : JsDate)
    (nowMs : Nat) (rand : String) : ApiResult :=
  match store with
  | none => .err .notFound
  | some o =>
    if o.canBeCancelledBy requester then
      let cancelledDoc := (({ o with status := OrderStatus.cancelled }).preSave nowMs rand)
      if validateOrderDoc now cancelledDoc then .ok cancelledDoc
      else .err (.validationFailed ["Validation failed"])
    else
      if o.userId == requester then
        .err (.statusConflict ("Order cannot be cancelled in its current status."))
      else
        .err (.forbidden ("Access denied. You can only cancel your own orders."))

/-! ## Serialization of orders in responses -/

/-- The `toJSON` transform of the order schema: delete
`metadata.ipAddress`, `metadata.userAgent`, `metadata.sessionId` (and the
internal `__v`); every other field is passed through.  This transform is
what `res.json(...)` applies to a mongoose document — the creation, read,
update and cancel responses. -/
def orderToJSON (o : Order) : Order :=
  { o with metadata := ⟨none, none, none⟩ }

/-- GET /api/orders (the list endpoint): the documents are fetched with
`.lean()`, which returns plain objects, so the response serializes the
orders exactly as stored — the `toJSON` transform above is NOT applied on
this path. -/
def listOrdersResponse (stored : List Order) (requester : String) : List Order :=
  stored.filter (fun o => o.userId == requester)

/-! ## The sliding-window rate limiter (frontend/src/utils/security.js) -/

structure RateLimiter where
  requests : List Nat
  maxRequests : Nat
  windowMs : Nat

/-- `canMakeRequest()`: prune timestamps that left the window, refuse when
the pruned count has reached the maximum, otherwise record `now` and
admit.  Both outcomes persist the pruned list (the JS mutates
`this.requests` before the check). -/
def RateLimiter.canMakeRequest (rl : RateLimiter) (now : Nat) : Bool × RateLimiter :=
  let pruned := rl.requests.filter (fun t => now - t < rl.windowMs)
  if rl.maxRequests ≤ pruned.length then (false, { rl with requests := pruned })
  else (true, { rl with requests := pruned ++ [now] })

/-- Feed a sequence of request timestamps through the limiter, collecting
the admit/refuse verdicts and the final state. -/
def runRequests (rl : RateLimiter) (ts : List Nat) : List Bool × RateLimiter :=
  match ts with
  | [] => ([], rl)
  | t :: rest =>
    let step := rl.canMakeRequest t
    let tail := runRequests step.2 rest
    (step.1 :: tail.1, tail.2)

/-! ## Concrete fixtures used by the witness theorems -/

def sampleUser : String := "auth0|alice1"

/-- A current instant: day 20000 is a Friday ((20000 + 4) % 7 = 5). -/
def dNow : JsDate := ⟨20000, 0⟩

/-- Day 20001 is a Saturday; day 20002 is a Sunday. -/
def dTomorrow : JsDate := ⟨20001, 0⟩

def mdEmpty : Metadata := ⟨none, none, none⟩

/-- A stored pending order owned by `sampleUser`. -/
def sampleOrder : Order := {
  userId := sampleUser
  orderNumber := "ORD-1-A"
  productName := "Laptop - Dell XPS 13"
  quantity := 2
  deliveryDate := dTomorrow
  deliveryTime := "10:00 AM"
  deliveryLocation := "Colombo"
  message := ""
  status := .pending
  unitPrice := 129999
  totalPrice := 259998
  createdAt := 500
  updatedAt := 500
  metadata := mdEmpty }

/-- The same order already shipped. -/
def shippedOrder : Order := { sampleOrder with status := .shipped }

/-- A stored order that still carries its request metadata. -/
def leakOrder : Order :=
  { sampleOrder with metadata := ⟨some ("203.0.113.5"), some ("curl/8.4.0"), some ("sess42")⟩ }

/-- A well-formed creation body (with a client-supplied total the handler
must ignore). -/
def sampleBody : CreateBody := {
  productName := "Laptop - Dell XPS 13"
  quantity := 2
  deliveryDate := some dTomorrow
  deliveryTime := "10:00 AM"
  deliveryLocation := "Colombo"
  message := none
  totalPrice := some 1 }

/-- The same body with the XSS probe of the spec as the message. -/
def scriptBody : CreateBody :=
  { sampleBody with message := some ("<script>alert(1)</script>") }

/-- The order that `createOrder sampleUser sampleBody dNow 1000 "AB12C"`
persists. -/
def sampleCreated : Order := {
  userId := sampleUser
  orderNumber := "ORD-1000-AB12C"
  productName := "Laptop - Dell XPS 13"
  quantity := 2
  deliveryDate := dTomorrow
  deliveryTime := "10:00 AM"
  deliveryLocation := "Colombo"
  message := ""
  status := .pending
  unitPrice := 129999
  totalPrice := 259998
  createdAt := 1000
  updatedAt := 1000
  metadata := mdEmpty }

/-- An update body changing delivery fields and also attempting to smuggle
new values into the fields the handler never reads. -/
def tamperBody : UpdateBody := {
  deliveryDate := some ⟨20006, 0⟩
  deliveryTime := some ("11:00 AM")
  message := some ("  thanks  ")
  userId := some ("auth0|mallory9")
  quantity := some 9
  unitPrice := some 1
  totalPrice := some 1
  status := some .shipped
  orderNumber := some ("HACK")
  createdAt := some 5 }

/-- What PUT with `tamperBody` actually persists. -/
def sampleUpdated : Order := { sampleOrder with
  deliveryDate := ⟨20006, 0⟩
  deliveryTime := "11:00 AM"
  message := "thanks"
  updatedAt := 999 }

example : genOrderNumber 1000 ("AB12C") = "ORD-1000-AB12C" := by decide
example : createOrder sampleUser sampleBody dNow 1000 ("AB12C") mdEmpty = .ok sampleCreated := by decide
example : createPipeline sampleUser scriptBody dNow 1000 ("AB12C") mdEmpty = .ok sampleCreated := by decide
example : updateOrder (some sampleOrder) sampleUser tamperBody dNow 999 = .ok sampleUpdated := by decide
example : (20006 + 4) % 7 = 4 := by decide
example : cancelOrder (some sampleOrder) sampleUser dNow 999 ("XY") =
  .ok { sampleOrder with status := .cancelled, updatedAt := 999 } := by decide

/-! ## Helper lemmas -/

theorem genOrderNumber_ne_empty (ts : Nat) (rand : String) :
    genOrderNumber ts rand ≠ "" := by
  intro h
  have h2 := congrArg String.data h
  simp [genOrderNumber] at h2

theorem preSave_unitPrice (o : Order) (n : Nat) (r : String) :
    (o.preSave n r).unitPrice = o.unitPrice := by
  simp only [Order.preSave]
  split <;> rfl

theorem preSave_quantity (o : Order) (n : Nat) (r : String) :
    (o.preSave n r).quantity = o.quantity := by
  simp only [Order.preSave]
  split <;> rfl

theorem preSave_totalPrice (o : Order) (n : Nat) (r : String) :
    (o.preSave n r).totalPrice = o.unitPrice * o.quantity := by
  simp only [Order.preSave]
  split <;> rfl

theorem preSave_orderNumber_absent (o : Order) (n : Nat) (r : String)
    (h : o.orderNumber = "") : (o.preSave n r).orderNumber = genOrderNumber n r := by
  simp only [Order.preSave]
  rw [if_pos h]

theorem preSave_orderNumber_present (o : Order) (n : Nat) (r : String)
    (h : o.orderNumber ≠ "") : (o.preSave n r).orderNumber = o.orderNumber := by
  simp only [Order.preSave]
  rw [if_neg h]

/-- The price invariant on a document, and its lift to a route result. -/
def priceOk (o : Order) : Bool := o.totalPrice == o.unitPrice * o.quantity

def resPriceOk : ApiResult → Bool
  | .ok o => priceOk o
  | .err _ => true

theorem priceOk_preSave (o : Order) (n : Nat) (r : String) :
    priceOk (o.preSave n r) = true := by
  simp [priceOk, preSave_totalPrice, preSave_unitPrice, preSave_quantity]

/-- C1: after every create and every update (and cancel) the persisted
order satisfies `totalPrice = unitPrice * quantity`; a create establishes
it through the pre-save hook, an update via `findByIdAndUpdate` touches
only delivery fields and so preserves it, and the client-supplied total in
the creation body is never read at all. -/
theorem c1_total_price_invariant (requester : String) (b : CreateBody)
    (now : JsDate) (nowMs : Nat) (rand : String) (md : Metadata)
    (t : Option Nat) (ord : Order) (ub : UpdateBody) (unow : JsDate)
    (unowMs : Nat) :
    resPriceOk (createOrder requester b now nowMs rand md) = true
    ∧ createOrder requester { b with totalPrice := t } now nowMs rand md
        = createOrder requester b now nowMs rand md
    ∧ (priceOk ord = true →
        resPriceOk (updateOrder (some ord) requester ub unow unowMs) = true)
    ∧ resPriceOk (cancelOrder (some ord) requester unow unowMs rand) = true := by
  refine ⟨?_, ?_, ?_, ?_⟩
  · simp only [createOrder]
    split
    · split
      · simp only [resPriceOk, priceOk_preSave]
      · rfl
    · rfl
  · cases b
    rfl
  · intro hord
    simp only [updateOrder]
    split
    · split
      · split
        · simpa only [resPriceOk, priceOk] using hord
        · rfl
      · split <;> rfl
    · rfl
  · simp only [cancelOrder]
    split
    · split
      · simp only [resPriceOk, priceOk_preSave]
      · rfl
    · split <;> rfl

theorem c1_total_price_invariant_witness :
    resPriceOk (createOrder sampleUser sampleBody dNow 1000 ("AB12C") mdEmpty) = true
    ∧ createOrder sampleUser { sampleBody with totalPrice := some 7 } dNow 1000 ("AB12C") mdEmpty
        = createOrder sampleUser sampleBody dNow 1000 ("AB12C") mdEmpty
    ∧ resPriceOk (updateOrder (some sampleOrder) sampleUser tamperBody dNow 999) = true
    ∧ resPriceOk (cancelOrder (some sampleOrder) sampleUser dNow 999 ("AB12C")) = true := by
  obtain ⟨h1, h2, h3, h4⟩ := c1_total_price_invariant sampleUser sampleBody dNow 1000
    ("AB12C") mdEmpty (some 7) sampleOrder tamperBody dNow 999
  exact ⟨h1, h2, h3 (by decide), h4⟩

/-- C3: for an order whose status is outside {pending, confirmed} (for
example `shipped`), a well-formed delivery-field update by the owner
fails with the Conflict-class status error ("Order cannot be modified in
its current status."), not with Forbidden; and the failure causes are
discriminated by checking ownership first — a non-owner gets Forbidden
whatever the status. -/
theorem c3_status_conflict_not_forbidden (ord : Order) (requester : String)
    (b : UpdateBody) (now : JsDate) (nowMs : Nat)
    (hval : validateUpdateBody now b = []) :
    (ord.userId = requester → ord.status ≠ .pending → ord.status ≠ .confirmed →
      updateOrder (some ord) requester b now nowMs =
        .err (.statusConflict ("Order cannot be modified in its current status.")))
    ∧ (ord.userId ≠ requester →
      updateOrder (some ord) requester b now nowMs =
        .err (.forbidden ("Access denied. You can only modify your own orders."))) := by
  constructor
  · intro hown hp hc
    have hmod : ord.canBeModifiedBy requester = false := by
      simp [Order.canBeModifiedBy, hown, hp, hc]
    simp [updateOrder, hval, hmod, hown]
  · intro hne
    have hmod : ord.canBeModifiedBy requester = false := by
      simp [Order.canBeModifiedBy, hne]
    simp [updateOrder, hval, hmod, hne]

theorem c3_status_conflict_not_forbidden_witness :
    updateOrder (some shippedOrder) sampleUser ({} : UpdateBody) dNow 999 =
      .err (.statusConflict ("Order cannot be modified in its current status.")) :=
  (c3_status_conflict_not_forbidden shippedOrder sampleUser {} dNow 999
    (by decide)).1 (by decide) (by decide) (by decide)

/-- C4: a read, update or cancel of an order owned by A, issued by an
authenticated user B different from A, fails with the route's Forbidden
error, and the stored order is unchanged (the update leaves the store
untouched even when the request body is malformed, in which case the
validator rejects it before the ownership check). -/
theorem c4_cross_user_forbidden (o : Order) (bUser : String) (ub : UpdateBody)
    (now : JsDate) (nowMs : Nat) (rand : String)
    (hne : o.userId ≠ bUser) :
    getOrder (some o) bUser =
      .err (.forbidden ("Access denied. You can only access your own orders.")) ∧
    (validateUpdateBody now ub = [] →
      updateOrder (some o) bUser ub now nowMs =
        .err (.forbidden ("Access denied. You can only modify your own orders.")))
    ∧ applyResult (some o) (updateOrder (some o) bUser ub now nowMs) = some o
    ∧ cancelOrder (some o) bUser now nowMs rand =
        .err (.forbidden ("Access denied. You can only cancel your own orders."))
    ∧ applyResult (some o) (cancelOrder (some o) bUser now nowMs rand) = some o := by
  have hmod : o.canBeModifiedBy bUser = false := by
    simp [Order.canBeModifiedBy, hne]
  have hcan : o.canBeCancelledBy bUser = false := by
    simp [Order.canBeCancelledBy, hne]
  refine ⟨?_, ?_, ?_, ?_, ?_⟩
  · simp [getOrder, hne]
  · intro hval
    simp [updateOrder, hval, hmod, hne]
  · by_cases hval : validateUpdateBody now ub = []
    · simp [updateOrder, hval, hmod, hne, applyResult]
    · simp [updateOrder, hval, applyResult]
  · simp [cancelOrder, hcan, hne]
  · simp [cancelOrder, hcan, hne, applyResult]

theorem c4_cross_user_forbidden_witness :
    getOrder (some sampleOrder) ("auth0|bob9") =
      .err (.forbidden ("Access denied. You can only access your own orders.")) ∧
    updateOrder (some sampleOrder) ("auth0|bob9") ({} : UpdateBody) dNow 999 =
      .err (.forbidden ("Access denied. You can only modify your own orders."))
    ∧ applyResult (some sampleOrder)
        (updateOrder (some sampleOrder) ("auth0|bob9") ({} : UpdateBody) dNow 999) = some sampleOrder
    ∧ cancelOrder (some sampleOrder) ("auth0|bob9") dNow 999 ("AB12C") =
        .err (.forbidden ("Access denied. You can only cancel your own orders."))
    ∧ applyResult (some sampleOrder)
        (cancelOrder (some sampleOrder) ("auth0|bob9") dNow 999 ("AB12C")) = some sampleOrder := by
  obtain ⟨h1, h2, h3, h4, h5⟩ := c4_cross_user_forbidden sampleOrder ("auth0|bob9")
    ({} : UpdateBody) dNow 999 ("AB12C") (by decide)
  exact ⟨h1, h2 (by decide), h3, h4, h5⟩

/-- C5: the delivery-date rule shared by the create/update route
validators (`dateCheckMsgs`) and the mongoose schema validator
(`validDeliveryDate`): a date strictly before the current date
(date-only) is rejected; a date equal to the current date is accepted
when it is not a Sunday; any Sunday is rejected no matter how far in the
future; and the comparison ignores the time-of-day components entirely. -/
theorem c5_delivery_date_rules (now d : JsDate) :
    (d.day < now.day →
      validDeliveryDate now d = false ∧ dateCheckMsgs now d ≠ [])
    ∧ ((d.day + 4) % 7 = 0 →
      validDeliveryDate now d = false ∧ dateCheckMsgs now d ≠ [])
    ∧ (d.day = now.day → (d.day + 4) % 7 ≠ 0 →
      validDeliveryDate now d = true ∧ dateCheckMsgs now d = [])
    ∧ validDeliveryDate now d = validDeliveryDate ⟨now.day, 0⟩ ⟨d.day, 0⟩
    ∧ dateCheckMsgs now d = dateCheckMsgs ⟨now.day, 0⟩ ⟨d.day, 0⟩ := by
  refine ⟨?_, ?_, ?_, rfl, rfl⟩
  · intro h
    unfold validDeliveryDate dateCheckMsgs
    rw [if_pos h, if_pos h]
    exact ⟨rfl, by simp⟩
  · intro h
    unfold validDeliveryDate dateCheckMsgs
    by_cases h2 : d.day < now.day
    · rw [if_pos h2, if_pos h2]
      exact ⟨rfl, by simp⟩
    · rw [if_neg h2, if_neg h2, if_pos h, if_pos h]
      exact ⟨rfl, by simp⟩
  · intro h1 h2
    have h3 : ¬ d.day < now.day := by omega
    unfold validDeliveryDate dateCheckMsgs
    rw [if_neg h3, if_neg h3, if_neg h2, if_neg h2]
    exact ⟨rfl, rfl⟩

theorem c5_delivery_date_rules_witness :
    (validDeliveryDate dNow ⟨19999, 3⟩ = false ∧ dateCheckMsgs dNow ⟨19999, 3⟩ ≠ [])
    ∧ (validDeliveryDate dNow ⟨20002, 0⟩ = false ∧ dateCheckMsgs dNow ⟨20002, 0⟩ ≠ [])
    ∧ (validDeliveryDate dNow ⟨20000, 777⟩ = true ∧ dateCheckMsgs dNow ⟨20000, 777⟩ = []) := by
  refine ⟨(c5_delivery_date_rules dNow ⟨19999, 3⟩).1 (by decide),
    ((c5_delivery_date_rules dNow ⟨20002, 0⟩).2.1) (by decide),
    ((c5_delivery_date_rules dNow ⟨20000, 777⟩).2.2.1) (by decide) (by decide)⟩

/-- C6: the order number is produced exactly once, at creation, by the
pre-save hook (timestamp plus random suffix, hence never the empty
string); a successful update never touches it, and a cancellation (which
re-runs the pre-save hook) keeps the existing nonempty number. -/
theorem c6_order_number_stable (requester : String) (b : CreateBody)
    (now : JsDate) (nowMs : Nat) (rand : String) (md : Metadata)
    (ord : Order) (ub : UpdateBody) (unow : JsDate) (unowMs : Nat)
    (o1 o2 o3 : Order) :
    (createOrder requester b now nowMs rand md = .ok o1 →
      o1.orderNumber = genOrderNumber nowMs rand)
    ∧ (updateOrder (some ord) requester ub unow unowMs = .ok o2 →
      o2.orderNumber = ord.orderNumber)
    ∧ (ord.orderNumber ≠ "" →
      cancelOrder (some ord) requester unow unowMs rand = .ok o3 →
      o3.orderNumber = ord.orderNumber)
    ∧ genOrderNumber nowMs rand ≠ "" := by
  refine ⟨?_, ?_, ?_, genOrderNumber_ne_empty nowMs rand⟩
  · intro h
    simp only [createOrder] at h
    split at h
    · split at h
      · injection h with h2
        subst h2
        exact preSave_orderNumber_absent _ _ _ rfl
      · exact absurd h (by simp)
    · exact absurd h (by simp)
  · intro h
    simp only [updateOrder] at h
    split at h
    · split at h
      · split at h
        · injection h with h2
          subst h2
          rfl
        · exact absurd h (by simp)
      · split at h <;> exact absurd h (by simp)
    · exact absurd h (by simp)
  · intro hne h
    simp only [cancelOrder] at h
    split at h
    · split at h
      · injection h with h2
        subst h2
        exact preSave_orderNumber_present _ _ _ hne
      · exact absurd h (by simp)
    · split at h <;> exact absurd h (by simp)

theorem c6_order_number_stable_witness :
    sampleCreated.orderNumber = genOrderNumber 1000 ("AB12C")
    ∧ sampleUpdated.orderNumber = sampleOrder.orderNumber
    ∧ ({ sampleOrder with status := OrderStatus.cancelled, updatedAt := 999 } : Order).orderNumber
        = sampleOrder.orderNumber
    ∧ genOrderNumber 1000 ("AB12C") ≠ "" := by
  obtain ⟨h1, h2, h3, h4⟩ := c6_order_number_stable sampleUser sampleBody dNow 1000
    ("AB12C") mdEmpty sampleOrder tamperBody dNow 999 sampleCreated sampleUpdated
    ({ sampleOrder with status := OrderStatus.cancelled, updatedAt := 999 })
  exact ⟨h1 (by decide), h2 (by decide), h3 (by decide) (by decide), h4⟩

/-- C10: a successful PUT /api/orders/:id changes at most the four
delivery fields (`deliveryDate`, `deliveryTime`, `deliveryLocation`,
`message`, each only when supplied); `userId`, `productName`,
`quantity`, `unitPrice`, `totalPrice`, `status`, `orderNumber` and
`createdAt` are unchanged, whatever extra values the request body
carries for them. -/
theorem c10_update_frame (ord : Order) (requester : String) (b : UpdateBody)
    (now : JsDate) (nowMs : Nat) (o' : Order)
    (h : updateOrder (some ord) requester b now nowMs = .ok o') :
    o'.userId = ord.userId ∧ o'.productName = ord.productName
    ∧ o'.quantity = ord.quantity ∧ o'.unitPrice = ord.unitPrice
    ∧ o'.totalPrice = ord.totalPrice ∧ o'.status = ord.status
    ∧ o'.orderNumber = ord.orderNumber ∧ o'.createdAt = ord.createdAt
    ∧ o'.deliveryDate = b.deliveryDate.getD ord.deliveryDate
    ∧ o'.deliveryTime = b.deliveryTime.getD ord.deliveryTime
    ∧ o'.deliveryLocation = b.deliveryLocation.getD ord.deliveryLocation
    ∧ o'.message = (b.message.map jsTrim).getD ord.message := by
  simp only [updateOrder] at h
  split at h
  · split at h
    · split at h
      · injection h with h2
        subst h2
        exact ⟨rfl, rfl, rfl, rfl, rfl, rfl, rfl, rfl, rfl, rfl, rfl, rfl⟩
      · exact absurd h (by simp)
    · split at h <;> exact absurd h (by simp)
  · exact absurd h (by simp)

theorem c10_update_frame_witness :
    sampleUpdated.userId = sampleOrder.userId
    ∧ sampleUpdated.productName = sampleOrder.productName
    ∧ sampleUpdated.quantity = sampleOrder.quantity
    ∧ sampleUpdated.unitPrice = sampleOrder.unitPrice
    ∧ sampleUpdated.totalPrice = sampleOrder.totalPrice
    ∧ sampleUpdated.status = sampleOrder.status
    ∧ sampleUpdated.orderNumber = sampleOrder.orderNumber
    ∧ sampleUpdated.createdAt = sampleOrder.createdAt
    ∧ sampleUpdated.deliveryDate = tamperBody.deliveryDate.getD sampleOrder.deliveryDate
    ∧ sampleUpdated.deliveryTime = tamperBody.deliveryTime.getD sampleOrder.deliveryTime
    ∧ sampleUpdated.deliveryLocation = tamperBody.deliveryLocation.getD sampleOrder.deliveryLocation
    ∧ sampleUpdated.message = (tamperBody.message.map jsTrim).getD sampleOrder.message :=
  c10_update_frame sampleOrder sampleUser tamperBody dNow 999 sampleUpdated (by decide)

/-! ## Rate-limiter lemmas -/

/-- When every recorded timestamp and the current instant lie in a common
interval shorter than the window, pruning removes nothing. -/
theorem filter_window_eq_self {l : List Nat} {a b W now : Nat}
    (hl : ∀ x ∈ l, a ≤ x ∧ x ≤ b) (hnb : now ≤ b) (hW : b - a < W) :
    l.filter (fun t => now - t < W) = l := by
  apply List.filter_eq_self.mpr
  intro x hx
  have hb := hl x hx
  simp only [decide_eq_true_eq]
  omega

theorem runRequests_append (rl : RateLimiter) (xs ys : List Nat) :
    runRequests rl (xs ++ ys) =
      ((runRequests rl xs).1 ++ (runRequests (runRequests rl xs).2 ys).1,
        (runRequests (runRequests rl xs).2 ys).2) := by
  induction xs generalizing rl with
  | nil => simp [runRequests]
  | cons t rest ih => simp [runRequests, ih]

/-- As long as the running count stays below the maximum and all times fall
inside one window-span, every request is admitted and appended. -/
theorem runRequests_admits (W N a b : Nat) (hW : b - a < W) :
    ∀ (ts pre : List Nat),
      (∀ x ∈ pre, a ≤ x ∧ x ≤ b) → (∀ x ∈ ts, a ≤ x ∧ x ≤ b) →
      pre.length + ts.length ≤ N →
      runRequests ⟨pre, N, W⟩ ts = (List.replicate ts.length true, ⟨pre ++ ts, N, W⟩)
  | [], pre, hpre, hts, hlen => by simp [runRequests]
  | t :: rest, pre, hpre, hts, hlen => by
    have htb : a ≤ t ∧ t ≤ b := hts t (by simp)
    have hfilt : pre.filter (fun x => t - x < W) = pre :=
      filter_window_eq_self hpre htb.2 hW
    have hlt : ¬ N ≤ pre.length := by
      simp only [List.length_cons] at hlen
      omega
    have hpre2 : ∀ x ∈ pre ++ [t], a ≤ x ∧ x ≤ b := by
      intro x hx
      rcases List.mem_append.mp hx with hx | hx
      · exact hpre x hx
      · simp at hx
        subst hx
        exact htb
    have hts2 : ∀ x ∈ rest, a ≤ x ∧ x ≤ b := fun x hx => hts x (by simp [hx])
    have hlen2 : (pre ++ [t]).length + rest.length ≤ N := by
      simp only [List.length_append, List.length_cons, List.length_nil] at hlen ⊢
      omega
    have hrec := runRequests_admits W N a b hW rest (pre ++ [t]) hpre2 hts2 hlen2
    simp only [runRequests, RateLimiter.canMakeRequest, hfilt, if_neg hlt, hrec]
    simp [List.replicate_succ, List.append_assoc]

/-- C7: with window `W` and maximum `N`, starting from an idle limiter,
`N + 1` requests inside one window-span `[a, b]` (`b - a < W`) yield `N`
admissions followed by a refusal, and once the first (oldest) admitted
timestamp `t0` has left the window (`v - t0 ≥ W`), the next request is
admitted again. -/
theorem c7_rate_limiter_window (W N a b u v t0 : Nat) (rest : List Nat)
    (hlen : rest.length + 1 = N)
    (hts : ∀ x ∈ t0 :: rest, a ≤ x ∧ x ≤ b)
    (hu : a ≤ u ∧ u ≤ b) (hspan : b - a < W)
    (hv : W ≤ v - t0) :
    runRequests ⟨[], N, W⟩ ((t0 :: rest) ++ [u]) =
      (List.replicate N true ++ [false], ⟨t0 :: rest, N, W⟩)
    ∧ ((⟨t0 :: rest, N, W⟩ : RateLimiter).canMakeRequest v).1 = true := by
  constructor
  · have hadm := runRequests_admits W N a b hspan (t0 :: rest) []
      (by intro x hx; simp at hx) hts
      (by simp [List.length_cons, hlen])
    have hfiltu : (t0 :: rest).filter (fun x => u - x < W) = t0 :: rest :=
      filter_window_eq_self hts hu.2 hspan
    have hfull : N ≤ (t0 :: rest).length := by
      simp only [List.length_cons]
      omega
    rw [runRequests_append, hadm]
    simp only [runRequests, RateLimiter.canMakeRequest, List.nil_append]
    rw [hfiltu]
    simp only [if_pos hfull]
    simp [List.length_cons, hlen]
  · have hdrop : ¬ (v - t0 < W) := by omega
    have hle : ((t0 :: rest).filter (fun t => v - t < W)).length ≤ rest.length := by
      simp only [List.filter_cons, decide_eq_true_eq, if_neg hdrop]
      exact List.length_filter_le _ _
    have hnotfull : ¬ N ≤ ((t0 :: rest).filter (fun t => v - t < W)).length := by
      omega
    simp only [RateLimiter.canMakeRequest, if_neg hnotfull]

theorem c7_rate_limiter_window_witness :
    runRequests ⟨[], 2, 10⟩ ([0, 1] ++ [2]) =
      (List.replicate 2 true ++ [false], ⟨[0, 1], 2, 10⟩)
    ∧ ((⟨[0, 1], 2, 10⟩ : RateLimiter).canMakeRequest 10).1 = true := by
  exact c7_rate_limiter_window 10 2 0 2 2 10 0 [1] (by decide)
    (by
      intro x hx
      simp at hx
      rcases hx with h | h <;> subst h <;> exact ⟨by decide, by decide⟩)
    ⟨by decide, by decide⟩ (by decide) (by decide)

/-! ## Sanitizer traversal lemmas -/

mutual
theorem eraseStrings_sanitizeValue : ∀ v : JsValue,
    eraseStrings (sanitizeValue v) = eraseStrings v
  | .vstr s => by simp [sanitizeValue, eraseStrings]
  | .vnum n => rfl
  | .vbool b => rfl
  | .vnull => rfl
  | .varr a => by
    simp only [sanitizeValue, eraseStrings, eraseArr_sanitizeArray a]
  | .vobj o => by
    simp only [sanitizeValue, eraseStrings, eraseObj_sanitizeObject o]
theorem eraseArr_sanitizeArray : ∀ a : JsArray,
    eraseArr (sanitizeArray a) = eraseArr a
  | .nil => rfl
  | .cons v rest => by
    simp only [sanitizeArray, eraseArr, eraseStrings_sanitizeValue v,
      eraseArr_sanitizeArray rest]
theorem eraseObj_sanitizeObject : ∀ o : JsObject,
    eraseObj (sanitizeObject o) = eraseObj o
  | .nil => rfl
  | .cons k v rest => by
    simp only [sanitizeObject, eraseObj, eraseStrings_sanitizeValue v,
      eraseObj_sanitizeObject rest]
end

mutual
theorem stringLeaves_sanitizeValue : ∀ v : JsValue,
    stringLeaves (sanitizeValue v) = (stringLeaves v).map sanitizeString
  | .vstr s => by simp [sanitizeValue, stringLeaves]
  | .vnum n => rfl
  | .vbool b => rfl
  | .vnull => rfl
  | .varr a => by
    simp only [sanitizeValue, stringLeaves, arrLeaves_sanitizeArray a]
  | .vobj o => by
    simp only [sanitizeValue, stringLeaves, objLeaves_sanitizeObject o]
theorem arrLeaves_sanitizeArray : ∀ a : JsArray,
    arrLeaves (sanitizeArray a) = (arrLeaves a).map sanitizeString
  | .nil => rfl
  | .cons v rest => by
    simp only [sanitizeArray, arrLeaves, stringLeaves_sanitizeValue v,
      arrLeaves_sanitizeArray rest, List.map_append]
theorem objLeaves_sanitizeObject : ∀ o : JsObject,
    objLeaves (sanitizeObject o) = (objLeaves o).map sanitizeString
  | .nil => rfl
  | .cons k v rest => by
    simp only [sanitizeObject, objLeaves, stringLeaves_sanitizeValue v,
      objLeaves_sanitizeObject rest, List.map_append]
end

/-- C8: the `sanitizeInput` middleware rewrites every string value of a
request (body, query and path parameters, recursively through nested
objects and arrays) by the three pattern substitutions of
`sanitizeString`, leaves every non-string value and all structure
untouched (the erasure of string content is invariant), updates the
request's own containers in place (modelled as the returned request
state), and is total — it never fails or rejects an input. -/
theorem c8_sanitizer_structure (v : JsValue) (r : JsRequest) :
    eraseStrings (sanitizeValue v) = eraseStrings v
    ∧ stringLeaves (sanitizeValue v) = (stringLeaves v).map sanitizeString
    ∧ sanitizeRequest r =
        ⟨r.body.map sanitizeValue, r.query.map sanitizeValue, r.params.map sanitizeValue⟩ :=
  ⟨eraseStrings_sanitizeValue v, stringLeaves_sanitizeValue v, rfl⟩

/-- C9: the claim that request metadata (client IP, user-agent, session
id) is absent from every serialized order response fails on the list
endpoint: GET /api/orders fetches with `.lean()`, so the response carries
the stored document verbatim, metadata included — while the `toJSON`
transform used by the creation/read/update/cancel paths does strip
exactly the three metadata fields and preserves every other field. -/
theorem c9_metadata_leak_on_list :
    listOrdersResponse [leakOrder] sampleUser = [leakOrder]
    ∧ leakOrder.metadata.ipAddress = some ("203.0.113.5")
    ∧ leakOrder.metadata.userAgent = some ("curl/8.4.0")
    ∧ (orderToJSON leakOrder).metadata = ⟨none, none, none⟩
    ∧ { orderToJSON leakOrder with metadata := leakOrder.metadata } = leakOrder := by
  decide

/-- C2 as written is false: this concrete authenticated creation request,
whose message field contains exactly `<script>alert(1)</script>`, is NOT
rejected by the pipeline — the sanitization middleware strips the script
element before the validators run, validation passes, and the order is
created with the emptied message. -/
theorem c2_script_message_counterexample :
    (createPipeline sampleUser scriptBody dNow 1000 ("AB12C") mdEmpty).isOk = true
    ∧ resultMessage (createPipeline sampleUser scriptBody dNow 1000 ("AB12C") mdEmpty)
        = some ("") := by
  decide

/-- C2 (amended): for an authenticated creation request whose message
field is the string `<script>alert(1)</script>` (with otherwise valid
fields), the sanitization middleware removes the whole script element
before field validation, the validators accept the sanitized (empty)
message, and the order is created with the script content stripped — the
request is not rejected with a validation failure. -/
theorem c2_script_message_stripped (requester : String) (now dd : JsDate)
    (nowMs : Nat) (rand : String) (md : Metadata) (t : Option Nat)
    (huid : validUserIdStr requester = true)
    (hfut : now.day ≤ dd.day)
    (hsun : (dd.day + 4) % 7 ≠ 0) :
    createPipeline requester
      { productName := "Laptop - Dell XPS 13", quantity := 2,
        deliveryDate := some dd, deliveryTime := "10:00 AM",
        deliveryLocation := "Colombo",
        message := some ("<script>alert(1)</script>"), totalPrice := t }
      now nowMs rand md
    = .ok { userId := requester, orderNumber := genOrderNumber nowMs rand,
            productName := "Laptop - Dell XPS 13", quantity := 2, deliveryDate := dd,
            deliveryTime := "10:00 AM", deliveryLocation := "Colombo", message := "",
            status := .pending, unitPrice := 129999, totalPrice := 259998,
            createdAt := nowMs, updatedAt := nowMs, metadata := md } := by
  have hps : sanitizeString ("Laptop - Dell XPS 13") = "Laptop - Dell XPS 13" := by decide
  have hts : sanitizeString ("10:00 AM") = "10:00 AM" := by decide
  have hls : sanitizeString ("Colombo") = "Colombo" := by decide
  have hms : sanitizeString ("<script>alert(1)</script>") = "" := by decide
  have hnlt : ¬ dd.day < now.day := by omega
  have hdate : dateCheckMsgs now dd = [] := by
    unfold dateCheckMsgs
    rw [if_neg hnlt, if_neg hsun]
  have hvd : validDeliveryDate now dd = true := by
    unfold validDeliveryDate
    rw [if_neg hnlt, if_neg hsun]
  have hgen : (genOrderNumber nowMs rand == "") = false := by
    simp [genOrderNumber_ne_empty nowMs rand]
  have hbody : sanitizeCreateBody
      { productName := "Laptop - Dell XPS 13", quantity := 2,
        deliveryDate := some dd, deliveryTime := "10:00 AM",
        deliveryLocation := "Colombo",
        message := some ("<script>alert(1)</script>"), totalPrice := t }
      = { productName := "Laptop - Dell XPS 13", quantity := 2,
          deliveryDate := some dd, deliveryTime := "10:00 AM",
          deliveryLocation := "Colombo", message := some (""), totalPrice := t } := by
    simp only [sanitizeCreateBody, Option.map_some', hps, hts, hls, hms]
  have herrs : validateCreateBody now
      { productName := "Laptop - Dell XPS 13", quantity := 2,
        deliveryDate := some dd, deliveryTime := "10:00 AM",
        deliveryLocation := "Colombo", message := some (""), totalPrice := t } = [] := by
    dsimp only [validateCreateBody]
    rw [hdate]
    decide
  have hsave : ({ userId := requester, orderNumber := "",
                  productName := "Laptop - Dell XPS 13", quantity := Int.toNat 2,
                  deliveryDate := Option.getD (some dd) ⟨0, 0⟩, deliveryTime := "10:00 AM",
                  deliveryLocation := "Colombo",
                  message := Option.getD (Option.map jsTrim (some (""))) "",
                  status := .pending,
                  unitPrice := Option.getD (productPrice ("Laptop - Dell XPS 13")) 0,
                  totalPrice := 0, createdAt := nowMs, updatedAt := nowMs,
                  metadata := md } : Order).preSave nowMs rand
      = { userId := requester, orderNumber := genOrderNumber nowMs rand,
          productName := "Laptop - Dell XPS 13", quantity := 2, deliveryDate := dd,
          deliveryTime := "10:00 AM", deliveryLocation := "Colombo", message := "",
          status := .pending, unitPrice := 129999, totalPrice := 259998,
          createdAt := nowMs, updatedAt := nowMs, metadata := md } := by
    have h1 : Int.toNat 2 = 2 := by decide
    have h2 : Option.getD (Option.map jsTrim (some (""))) "" = "" := by decide
    have h3 : Option.getD (productPrice ("Laptop - Dell XPS 13")) 0 = 129999 := by decide
    dsimp only [Order.preSave]
    rw [if_pos rfl, h1, h2, h3]
    norm_num
  have hdoc : validateOrderDoc now
      { userId := requester, orderNumber := genOrderNumber nowMs rand,
        productName := "Laptop - Dell XPS 13", quantity := 2, deliveryDate := dd,
        deliveryTime := "10:00 AM", deliveryLocation := "Colombo", message := "",
        status := .pending, unitPrice := 129999, totalPrice := 259998,
        createdAt := nowMs, updatedAt := nowMs, metadata := md } = true := by
    dsimp only [validateOrderDoc]
    rw [huid, hgen, hvd]
    decide
  unfold createPipeline
  rw [hbody]
  dsimp only [createOrder]
  rw [herrs, if_pos rfl, hsave, hdoc, if_pos rfl]

theorem c2_script_message_stripped_witness :
    createPipeline sampleUser
      { productName := "Laptop - Dell XPS 13", quantity := 2,
        deliveryDate := some dTomorrow, deliveryTime := "10:00 AM",
        deliveryLocation := "Colombo",
        message := some ("<script>alert(1)</script>"), totalPrice := some 1 }
      dNow 1000 ("AB12C") mdEmpty
    = .ok { userId := sampleUser, orderNumber := genOrderNumber 1000 ("AB12C"),
            productName := "Laptop - Dell XPS 13", quantity := 2, deliveryDate := dTomorrow,
            deliveryTime := "10:00 AM", deliveryLocation := "Colombo", message := "",
            status := .pending, unitPrice := 129999, totalPrice := 259998,
            createdAt := 1000, updatedAt := 1000, metadata := mdEmpty } :=
  c2_script_message_stripped sampleUser dNow dTomorrow 1000 ("AB12C") mdEmpty (some 1)
    (by decide) (by decide) (by decide)
